import Mathlib

/-!
Verification of the handshake engine of the Advantech AHC1EC0 embedded
controller driver (drivers/mfd/ahc1ec0.c), via a shallow embedding.

The EC chip is reachable only through two fixed I/O ports.  Each driver
routine is embedded as a state-passing function parameterized by an
environment `EcEnv` that answers port reads and consumes port writes, so
that different simulated controllers (test doubles) can be plugged in.
The machine state `St` carries the environment state together with
observability instrumentation: the serialization-gate (mutex) flag with
acquire/release counters, the port-level event trace, and the list of
HW-RAM cells whose data byte was actually fetched.  C `int` return codes
are embedded as `Int` (0 success, -110 for -ETIMEDOUT, -22 for -EINVAL,
-1 for the bare -1 returns); bytes travel as `Nat` reduced mod 256 at the
`inb`/`outb` boundary, mirroring the `uchar` port interface.
-/

namespace Ahc1ec0

/-- One of the two EC ports: the command port (0x29A in the source
comments) or the data/status port (0x299). -/
inductive Port
  | command
  | data

/-- A port-level event observed at the EC boundary. -/
inductive Ev
  | rdC (v : Nat)
  | rdD (v : Nat)
  | wrC (v : Nat)
  | wrD (v : Nat)

/-- The environment: a simulated controller with internal state `σ`,
answering `inb` and absorbing `outb`. -/
structure EcEnv (σ : Type) where
  rd : Port → σ → Nat × σ
  wr : Port → Nat → σ → σ

/-- Machine state threaded through the embedded driver code: controller
state plus instrumentation (gate flag and counters, port trace, fetched
HW-RAM cells). -/
structure St (σ : Type) where
  env : σ
  locked : Bool
  acquires : Nat
  releases : Nat
  badUnlock : Nat
  trace : List Ev
  ramReads : List Nat

/-- Initial machine state over a controller state: gate free, empty
instrumentation. -/
def st0 (e : σ) : St σ :=
  ⟨e, false, 0, 0, 0, [], []⟩

/-- Byte returned by `inb` on port `p` in state `s` (reduced mod 256:
the C `inb` returns a `u8`). -/
def inbVal (E : EcEnv σ) (p : Port) (s : St σ) : Nat :=
  (E.rd p s.env).1 % 256

/-- State after an `inb` on port `p`: environment stepped, read recorded. -/
def inbSt (E : EcEnv σ) (p : Port) (s : St σ) : St σ :=
  { s with
    env := (E.rd p s.env).2
    trace := s.trace ++ [match p with
      | .command => Ev.rdC (inbVal E p s)
      | .data => Ev.rdD (inbVal E p s)] }

/-- Embedded `inb`: value and successor state. -/
def inb (E : EcEnv σ) (p : Port) (s : St σ) : Nat × St σ :=
  (inbVal E p s, inbSt E p s)

/-- Embedded `outb`: the written byte (mod 256, the argument is a `u8`)
goes to the environment and into the trace. -/
def outb (E : EcEnv σ) (p : Port) (v : Nat) (s : St σ) : St σ :=
  { s with
    env := E.wr p (v % 256) s.env
    trace := s.trace ++ [match p with
      | .command => Ev.wrC (v % 256)
      | .data => Ev.wrD (v % 256)] }

/-- Embedded `mutex_lock(&lock)`. -/
def mlock (s : St σ) : St σ :=
  { s with locked := true, acquires := s.acquires + 1 }

/-- Embedded `mutex_unlock(&lock)`; `badUnlock` counts releases of a gate
that is not currently held (undefined behavior for a kernel mutex). -/
def munlock (s : St σ) : St σ :=
  { s with
    locked := false
    releases := s.releases + 1
    badUnlock := s.badUnlock + (if s.locked then 0 else 1) }

/-! ### Constants

`EC_TBL_WRITE_ITEM`, `EC_TBL_GET_PIN`, `EC_TBL_GET_DEVID` and the two
port numbers are fixed by the comments in ahc1ec0.c (0x20/0x21/0x22).
The remaining opcode and cell constants live in linux/mfd/ahc1ec0.h,
which is not among the sources here; per section 6 of the spec they form
an opaque byte table, and no claim depends on their numeric values
beyond the distinctness of the opcodes and of the SMBus cell addresses,
so representative distinct byte values are used. -/

/-- Retry budget of the busy-wait handshake primitives.  Modelled from
the spec: the numeric value lives in the header linux/mfd/ahc1ec0.h
(absent from the sources); section 4.1 fixes only that it is one
positive constant shared by `wait_ibf` and `wait_obf`. -/
def EC_MAX_TIMEOUT_COUNT : Nat := 1000

/-- Modelled from the spec (header constant): opcode for reading an EC
HW-RAM cell. -/
def EC_HW_RAM_READ : Nat := 0x88

/-- Modelled from the spec (header constant): opcode for writing an EC
HW-RAM cell. -/
def EC_HW_RAM_WRITE : Nat := 0x89

/-- Modelled from the spec (header constant): AD-channel index-write
opcode. -/
def EC_AD_INDEX_WRITE : Nat := 0x15

/-- Modelled from the spec (header constant): AD low-byte read opcode. -/
def EC_AD_LSB_READ : Nat := 0x16

/-- Modelled from the spec (header constant): AD high-byte read opcode. -/
def EC_AD_MSB_READ : Nat := 0x1F

/-- Modelled from the spec (header constant): GPIO index-write opcode. -/
def EC_GPIO_INDEX_WRITE : Nat := 0x10

/-- Modelled from the spec (header constant): GPIO status read opcode. -/
def EC_GPIO_STATUS_READ : Nat := 0x11

/-- Modelled from the spec (header constant): GPIO status write opcode. -/
def EC_GPIO_STATUS_WRITE : Nat := 0x12

/-- Modelled from the spec (header constant): GPIO direction read opcode. -/
def EC_GPIO_DIR_READ : Nat := 0x1D

/-- Modelled from the spec (header constant): GPIO direction write opcode. -/
def EC_GPIO_DIR_WRITE : Nat := 0x1E

/-- Table item-select opcode, 0x20 by the comments in the source. -/
def EC_TBL_WRITE_ITEM : Nat := 0x20

/-- Table pin-number read opcode, 0x21 by the comments in the source. -/
def EC_TBL_GET_PIN : Nat := 0x21

/-- Table device-id read opcode, 0x22 by the comments in the source. -/
def EC_TBL_GET_DEVID : Nat := 0x22

/-- Capacity of the dynamic table; the source comment limits item
numbers to the range 0 to 31. -/
def EC_MAX_TBL_NUM : Nat := 32

/-- Modelled from the spec (header constant): SMBus channel-select cell. -/
def EC_SMBUS_CHANNEL : Nat := 0x2B

/-- Modelled from the spec (header constant): SMBus slave-address cell. -/
def EC_SMBUS_SLV_ADDR : Nat := 0x2C

/-- Modelled from the spec (header constant): SMBus register (command)
cell. -/
def EC_SMBUS_CMD : Nat := 0x2D

/-- Modelled from the spec (header constant): SMBus data cell. -/
def EC_SMBUS_DATA : Nat := 0x2E

/-- Modelled from the spec (header macro): n-th SMBus data cell. -/
def EC_SMBUS_DAT_OFFSET (n : Nat) : Nat := EC_SMBUS_DATA + n

/-- Modelled from the spec (header constant): SMBus protocol (mode/arm)
cell. -/
def EC_SMBUS_PROTOCOL : Nat := 0x2A

/-- Modelled from the spec (header constant): SMBus status cell. -/
def EC_SMBUS_STATUS : Nat := 0x39

/-- Modelled from the spec (header constant): byte-read protocol mode. -/
def SMBUS_BYTE_READ : Nat := 0x05

/-- Modelled from the spec (header constant): byte-write protocol mode. -/
def SMBUS_BYTE_WRITE : Nat := 0x04

/-- Modelled from the spec (header constant): word-read protocol mode. -/
def SMBUS_WORD_READ : Nat := 0x07

/-! ### Handshake primitives -/

/-- Loop body of `wait_ibf`: poll the command port until bit 0x02 (input
buffer full) reads 0, up to the fuel; `udelay` has no observable effect
in this model. -/
def waitIbfAux (E : EcEnv σ) : Nat → St σ → Int × St σ
  | 0, s => (-110, s)
  | n + 1, s =>
      if inbVal E .command s &&& 0x02 = 0 then (0, inbSt E .command s)
      else waitIbfAux E n (inbSt E .command s)

/-- Embedded `wait_ibf` from ahc1ec0.c lines 74-86. -/
def wait_ibf (E : EcEnv σ) (s : St σ) : Int × St σ :=
  waitIbfAux E EC_MAX_TIMEOUT_COUNT s

/-- Loop body of `wait_obf`: poll the command port until bit 0x01 (output
buffer full) reads 1, up to the fuel. -/
def waitObfAux (E : EcEnv σ) : Nat → St σ → Int × St σ
  | 0, s => (-110, s)
  | n + 1, s =>
      if inbVal E .command s &&& 0x01 ≠ 0 then (0, inbSt E .command s)
      else waitObfAux E n (inbSt E .command s)

/-- Embedded `wait_obf` from ahc1ec0.c lines 89-101. -/
def wait_obf (E : EcEnv σ) (s : St σ) : Int × St σ :=
  waitObfAux E EC_MAX_TIMEOUT_COUNT s

/-! ### HW-RAM accessor -/

/-- Embedded `read_hw_ram` (lines 104-142).  `dataIn` is the value the
caller's `uchar data` variable holds before the call: the C routine
writes through the pointer only on the success path.  A successful fetch
also records the cell address in `ramReads`. -/
def read_hw_ram (E : EcEnv σ) (addr dataIn : Nat) (s : St σ) :
    (Int × Nat) × St σ :=
  let s := mlock s
  let (r, s) := wait_ibf E s
  if r = 0 then
    let s := outb E .command EC_HW_RAM_READ s
    let (r, s) := wait_ibf E s
    if r = 0 then
      let s := outb E .data addr s
      let (r, s) := wait_obf E s
      if r = 0 then
        let (v, s) := inb E .data s
        ((r, v), munlock { s with ramReads := s.ramReads ++ [addr] })
      else ((r, dataIn), munlock s)
    else ((r, dataIn), munlock s)
  else ((r, dataIn), munlock s)

/-- Embedded `write_hw_ram` (lines 145-183). -/
def write_hw_ram (E : EcEnv σ) (addr dataV : Nat) (s : St σ) :
    Int × St σ :=
  let s := mlock s
  let (r, s) := wait_ibf E s
  if r = 0 then
    let s := outb E .command EC_HW_RAM_WRITE s
    let (r, s) := wait_ibf E s
    if r = 0 then
      let s := outb E .data addr s
      let (r, s) := wait_ibf E s
      if r = 0 then
        let s := outb E .data dataV s
        (0, munlock s)
      else (r, munlock s)
    else (r, munlock s)
  else (r, munlock s)

/-! ### SMBus completion poll -/

/-- Loop of `wait_smbus_protocol_finish` (lines 185-203).  The C loop is
`do { data = 0xFF; if (!read_hw_ram(...)) return 0; if (data == 0)
return 0; udelay(...); } while (retry-- > 0);` with `retry = 1000`, so
the body runs up to 1001 times and the function returns 0 as soon as the
RAM read itself succeeds, whatever byte it delivered. -/
def waitSmbusGo (E : EcEnv σ) : Nat → St σ → Int × St σ
  | 0, s =>
      let ((r, d), s) := read_hw_ram E EC_SMBUS_PROTOCOL 0xFF s
      if r = 0 then (0, s)
      else if d = 0 then (0, s)
      else (-110, s)
  | n + 1, s =>
      let ((r, d), s) := read_hw_ram E EC_SMBUS_PROTOCOL 0xFF s
      if r = 0 then (0, s)
      else if d = 0 then (0, s)
      else waitSmbusGo E n s

/-- Embedded `wait_smbus_protocol_finish` with the source's
`retry = 1000`. -/
def wait_smbus_protocol_finish (E : EcEnv σ) (s : St σ) : Int × St σ :=
  waitSmbusGo E 1000 s

/-! ### Dynamic table enumeration -/

/-- Per-index loop of `adv_get_dynamic_tab` (lines 218-308).  The table
is a function from index to the pair (DeviceID, HWPinNumber); the C
`goto error` exits return the wait's code, the two 0xFF sentinel checks
return -EINVAL, and every exit releases the gate. -/
def dynTabLoop (E : EcEnv σ) :
    List Nat → (Nat → Nat × Nat) → St σ → Int × (Nat → Nat × Nat) × St σ
  | [], tbl, s => (0, tbl, munlock s)
  | i :: rest, tbl, s =>
      let (r, s) := wait_ibf E s
      if r = 0 then
        let s := outb E .command EC_TBL_WRITE_ITEM s
        let (r, s) := wait_ibf E s
        if r = 0 then
          let s := outb E .data i s
          let (r, s) := wait_obf E s
          if r = 0 then
            let (echo, s) := inb E .data s
            if echo = 0xff then (-22, tbl, munlock s)
            else
              let (r, s) := wait_ibf E s
              if r = 0 then
                let s := outb E .command EC_TBL_GET_PIN s
                let (r, s) := wait_obf E s
                if r = 0 then
                  let (pin_tmp, s) := inb E .data s
                  let (r, s) := wait_ibf E s
                  if r = 0 then
                    if pin_tmp = 0xff then (-22, tbl, munlock s)
                    else
                      let s := outb E .command EC_TBL_GET_DEVID s
                      let (r, s) := wait_obf E s
                      if r = 0 then
                        let (device_id, s) := inb E .data s
                        dynTabLoop E rest
                          (fun j => if j = i then (device_id, pin_tmp) else tbl j) s
                      else (r, tbl, munlock s)
                  else (r, tbl, munlock s)
                else (r, tbl, munlock s)
              else (r, tbl, munlock s)
          else (r, tbl, munlock s)
        else (r, tbl, munlock s)
      else (r, tbl, munlock s)

/-- Embedded `adv_get_dynamic_tab` (lines 206-317): takes the gate,
pre-initializes all `EC_MAX_TBL_NUM` entries to the sentinel pair
(0xFF, 0xFF), then enumerates every index. -/
def adv_get_dynamic_tab (E : EcEnv σ) (tbl0 : Nat → Nat × Nat) (s : St σ) :
    Int × (Nat → Nat × Nat) × St σ :=
  let s := mlock s
  let tbl := fun j => if j < EC_MAX_TBL_NUM then ((0xff : Nat), (0xff : Nat)) else tbl0 j
  dynTabLoop E (List.range EC_MAX_TBL_NUM) tbl s

/-! ### Indexed subsystem protocols (AD, GPIO) -/

/-- Embedded `read_ad_value` (lines 319-376).  On success the C code
computes `ret_val = ((MSB << 8) | LSB) & 0x03FF;` then
`ret_val = ret_val * multi * 100;` in a `u32`, and returns it through
the `int` return value; a 0xFF echo on pin select returns -1. -/
def read_ad_value (E : EcEnv σ) (hwpin multi : Nat) (s : St σ) :
    Int × St σ :=
  let s := mlock s
  let (r, s) := wait_ibf E s
  if r = 0 then
    let s := outb E .command EC_AD_INDEX_WRITE s
    let (r, s) := wait_ibf E s
    if r = 0 then
      let s := outb E .data hwpin s
      let (r, s) := wait_obf E s
      if r = 0 then
        let (echo, s) := inb E .data s
        if echo = 0xff then (-1, munlock s)
        else
          let (r, s) := wait_ibf E s
          if r = 0 then
            let s := outb E .command EC_AD_LSB_READ s
            let (r, s) := wait_obf E s
            if r = 0 then
              let (lsb, s) := inb E .data s
              let (r, s) := wait_ibf E s
              if r = 0 then
                let s := outb E .command EC_AD_MSB_READ s
                let (r, s) := wait_obf E s
                if r = 0 then
                  let (msb, s) := inb E .data s
                  let rv := (((msb <<< 8) ||| lsb) &&& 0x03FF) % 4294967296
                  let rv := (rv * multi * 100) % 4294967296
                  ((rv : Int), munlock s)
                else (r, munlock s)
              else (r, munlock s)
            else (r, munlock s)
          else (r, munlock s)
      else (r, munlock s)
    else (r, munlock s)
  else (r, munlock s)

/-- Embedded `read_gpio_status` (lines 445-494).  `valIn` is the prior
contents of the caller's output variable, written only on success. -/
def read_gpio_status (E : EcEnv σ) (pinNumber valIn : Nat) (s : St σ) :
    (Int × Nat) × St σ :=
  let s := mlock s
  let (r, s) := wait_ibf E s
  if r = 0 then
    let s := outb E .command EC_GPIO_INDEX_WRITE s
    let (r, s) := wait_ibf E s
    if r = 0 then
      let s := outb E .data pinNumber s
      let (r, s) := wait_obf E s
      if r = 0 then
        let (echo, s) := inb E .data s
        if echo = 0xff then ((-1, valIn), munlock s)
        else
          let (r, s) := wait_ibf E s
          if r = 0 then
            let s := outb E .command EC_GPIO_STATUS_READ s
            let (r, s) := wait_obf E s
            if r = 0 then
              let (v, s) := inb E .data s
              ((0, v), munlock s)
            else ((r, valIn), munlock s)
          else ((r, valIn), munlock s)
      else ((r, valIn), munlock s)
    else ((r, valIn), munlock s)
  else ((r, valIn), munlock s)

/-- Embedded `write_gpio_status` (lines 496-539). -/
def write_gpio_status (E : EcEnv σ) (pinNumber value : Nat) (s : St σ) :
    Int × St σ :=
  let s := mlock s
  let (r, s) := wait_ibf E s
  if r = 0 then
    let s := outb E .command EC_GPIO_INDEX_WRITE s
    let (r, s) := wait_ibf E s
    if r = 0 then
      let s := outb E .data pinNumber s
      let (r, s) := wait_obf E s
      if r = 0 then
        let (echo, s) := inb E .data s
        if echo = 0xff then (-1, munlock s)
        else
          let (r, s) := wait_ibf E s
          if r = 0 then
            let s := outb E .command EC_GPIO_STATUS_WRITE s
            let (r, s) := wait_ibf E s
            if r = 0 then
              let s := outb E .data value s
              (0, munlock s)
            else (r, munlock s)
          else (r, munlock s)
      else (r, munlock s)
    else (r, munlock s)
  else (r, munlock s)

/-- Embedded `read_gpio_dir` (lines 541-586). -/
def read_gpio_dir (E : EcEnv σ) (pinNumber valIn : Nat) (s : St σ) :
    (Int × Nat) × St σ :=
  let s := mlock s
  let (r, s) := wait_ibf E s
  if r = 0 then
    let s := outb E .command EC_GPIO_INDEX_WRITE s
    let (r, s) := wait_ibf E s
    if r = 0 then
      let s := outb E .data pinNumber s
      let (r, s) := wait_obf E s
      if r = 0 then
        let (echo, s) := inb E .data s
        if echo = 0xff then ((-1, valIn), munlock s)
        else
          let (r, s) := wait_ibf E s
          if r = 0 then
            let s := outb E .command EC_GPIO_DIR_READ s
            let (r, s) := wait_obf E s
            if r = 0 then
              let (v, s) := inb E .data s
              ((0, v), munlock s)
            else ((r, valIn), munlock s)
          else ((r, valIn), munlock s)
      else ((r, valIn), munlock s)
    else ((r, valIn), munlock s)
  else ((r, valIn), munlock s)

/-- Embedded `write_gpio_dir` (lines 588-631). -/
def write_gpio_dir (E : EcEnv σ) (pinNumber value : Nat) (s : St σ) :
    Int × St σ :=
  let s := mlock s
  let (r, s) := wait_ibf E s
  if r = 0 then
    let s := outb E .command EC_GPIO_INDEX_WRITE s
    let (r, s) := wait_ibf E s
    if r = 0 then
      let s := outb E .data pinNumber s
      let (r, s) := wait_obf E s
      if r = 0 then
        let (echo, s) := inb E .data s
        if echo = 0xff then (-1, munlock s)
        else
          let (r, s) := wait_ibf E s
          if r = 0 then
            let s := outb E .command EC_GPIO_DIR_WRITE s
            let (r, s) := wait_ibf E s
            if r = 0 then
              let s := outb E .data value s
              (0, munlock s)
            else (r, munlock s)
          else (r, munlock s)
      else (r, munlock s)
    else (r, munlock s)
  else (r, munlock s)

/-! ### SMBus pass-through protocol -/

/-- Embedded `struct EC_SMBUS_WORD_DATA` (fields are `uchar` except the
16-bit `Value`). -/
structure EC_SMBUS_WORD_DATA where
  Channel : Nat
  Address : Nat
  Register : Nat
  Value : Nat

/-- Embedded `struct EC_SMBUS_READ_BYTE`. -/
structure EC_SMBUS_READ_BYTE where
  Channel : Nat
  Address : Nat
  Register : Nat
  Data : Nat

/-- Embedded `struct EC_SMBUS_WRITE_BYTE`. -/
structure EC_SMBUS_WRITE_BYTE where
  Channel : Nat
  Address : Nat
  Register : Nat
  Data : Nat

/-- Body of `smbus_read_word` (lines 694-783), after the (absent) null
check.  The C local `data` is threaded as the `dataIn` argument of each
`read_hw_ram` call.  Note the source's control flow at the status check:
`ret` still holds 0 from the successful status read, so the
`sm_ready != 0x80` branch jumps to `error` and returns 0. -/
def smbus_read_word_body (E : EcEnv σ) (p : EC_SMBUS_WORD_DATA) (s : St σ) :
    Int × EC_SMBUS_WORD_DATA × St σ :=
  let (r, s) := write_hw_ram E EC_SMBUS_CHANNEL p.Channel s
  if r = 0 then
    let (r, s) := write_hw_ram E EC_SMBUS_SLV_ADDR p.Address s
    if r = 0 then
      let (r, s) := write_hw_ram E EC_SMBUS_CMD p.Register s
      if r = 0 then
        let (r, s) := write_hw_ram E EC_SMBUS_PROTOCOL SMBUS_WORD_READ s
        if r = 0 then
          let (r, s) := wait_smbus_protocol_finish E s
          if r = 0 then
            let ((r, d), s) := read_hw_ram E EC_SMBUS_STATUS SMBUS_WORD_READ s
            if r = 0 then
              let sm_ready := d
              if sm_ready ≠ 0x80 then (r, p, s)
              else
                let ((r, d), s) := read_hw_ram E (EC_SMBUS_DAT_OFFSET 0) sm_ready s
                if r = 0 then
                  let msb := d
                  let ((r, d), s) := read_hw_ram E (EC_SMBUS_DAT_OFFSET 1) msb s
                  if r = 0 then
                    let lsb := d
                    let value := ((msb <<< 8) ||| lsb) % 65536
                    (0, { p with Value := value }, s)
                  else (r, p, s)
                else (r, p, s)
            else (r, p, s)
          else (r, p, s)
        else (r, p, s)
      else (r, p, s)
    else (r, p, s)
  else (r, p, s)

/-- Embedded `smbus_read_word` entry point.  The request pointer is
modelled as an `Option`: the routine has no null check and dereferences
it unconditionally, so a null request has no defined result (`none`). -/
def smbus_read_word (E : EcEnv σ) (req : Option EC_SMBUS_WORD_DATA)
    (s : St σ) : Option (Int × Option EC_SMBUS_WORD_DATA × St σ) :=
  match req with
  | none => none
  | some p =>
      let (r, q, t) := smbus_read_word_body E p s
      some (r, some q, t)

/-- Body of `smbus_read_byte` (lines 795-866), after the null check.
As in `smbus_read_word`, a non-0x80 status byte reaches `error` with
`ret = 0` and so returns 0 without fetching the data cell. -/
def smbus_read_byte_body (E : EcEnv σ) (p : EC_SMBUS_READ_BYTE) (s : St σ) :
    Int × EC_SMBUS_READ_BYTE × St σ :=
  let (r, s) := write_hw_ram E EC_SMBUS_CHANNEL p.Channel s
  if r = 0 then
    let (r, s) := write_hw_ram E EC_SMBUS_SLV_ADDR p.Address s
    if r = 0 then
      let (r, s) := write_hw_ram E EC_SMBUS_CMD p.Register s
      if r = 0 then
        let (r, s) := write_hw_ram E EC_SMBUS_PROTOCOL SMBUS_BYTE_READ s
        if r = 0 then
          let (r, s) := wait_smbus_protocol_finish E s
          if r = 0 then
            let ((r, d), s) := read_hw_ram E EC_SMBUS_STATUS SMBUS_BYTE_READ s
            if r = 0 then
              let sm_ready := d
              if sm_ready ≠ 0x80 then (r, p, s)
              else
                let ((r, d), s) := read_hw_ram E EC_SMBUS_DATA sm_ready s
                if r = 0 then (0, { p with Data := d &&& 0xFF }, s)
                else (r, p, s)
            else (r, p, s)
          else (r, p, s)
        else (r, p, s)
      else (r, p, s)
    else (r, p, s)
  else (r, p, s)

/-- Embedded `smbus_read_byte` entry point (lines 786-793): this is the
only SMBus entry with a null check, returning -EINVAL on a null request. -/
def smbus_read_byte (E : EcEnv σ) (req : Option EC_SMBUS_READ_BYTE)
    (s : St σ) : Option (Int × Option EC_SMBUS_READ_BYTE × St σ) :=
  match req with
  | none => some (-22, none, s)
  | some p =>
      let (r, q, t) := smbus_read_byte_body E p s
      some (r, some q, t)

/-- Body of `smbus_write_byte` (lines 869-946), after the (absent) null
check.  This routine never calls `mutex_lock`, yet both its success exit
(line 939) and its `error` exit (line 944) call `mutex_unlock`. -/
def smbus_write_byte_body (E : EcEnv σ) (p : EC_SMBUS_WRITE_BYTE) (s : St σ) :
    Int × EC_SMBUS_WRITE_BYTE × St σ :=
  let (r, s) := write_hw_ram E EC_SMBUS_CHANNEL p.Channel s
  if r = 0 then
    let (r, s) := write_hw_ram E EC_SMBUS_SLV_ADDR p.Address s
    if r = 0 then
      let (r, s) := write_hw_ram E EC_SMBUS_CMD p.Register s
      if r = 0 then
        let (r, s) := write_hw_ram E EC_SMBUS_DATA p.Data s
        if r = 0 then
          let (r, s) := write_hw_ram E EC_SMBUS_PROTOCOL SMBUS_BYTE_WRITE s
          if r = 0 then
            let (r, s) := wait_smbus_protocol_finish E s
            if r = 0 then
              let ((r, d), s) := read_hw_ram E EC_SMBUS_STATUS SMBUS_BYTE_WRITE s
              if r = 0 then
                let sm_ready := d
                if sm_ready ≠ 0x80 then (r, p, munlock s)
                else (0, p, munlock s)
              else (r, p, munlock s)
            else (r, p, munlock s)
          else (r, p, munlock s)
        else (r, p, munlock s)
      else (r, p, munlock s)
    else (r, p, munlock s)
  else (r, p, munlock s)

/-- Embedded `smbus_write_byte` entry point: no null check, so a null
request has no defined result. -/
def smbus_write_byte (E : EcEnv σ) (req : Option EC_SMBUS_WRITE_BYTE)
    (s : St σ) : Option (Int × Option EC_SMBUS_WRITE_BYTE × St σ) :=
  match req with
  | none => none
  | some p =>
      let (r, q, t) := smbus_write_byte_body E p s
      some (r, some q, t)

/-! ### Test doubles (simulated controllers) -/

/-- Controller double whose command port always reads the constant `c`
and whose data port reads 0; writes are ignored. -/
def constEnv (c : Nat) : EcEnv Unit where
  rd := fun p e => match p with
    | .command => (c, e)
    | .data => (0, e)
  wr := fun _ _ e => e

/-- Phase of the HW-RAM protocol double. -/
inductive RamPhase
  | idle
  | readAddr
  | writeAddr
  | writeData (a : Nat)
  | readReady (v : Nat)

/-- State of the HW-RAM protocol double: cell contents plus phase. -/
structure RamSt where
  ram : Nat → Nat
  ph : RamPhase

/-- Controller double implementing the HW-RAM read/write handshake: the
command port reports IBF clear always and OBF set exactly when a read
response is latched; `EC_HW_RAM_READ` / `EC_HW_RAM_WRITE` opcodes drive
the phase machine; data-port writes supply the address then (for writes)
the byte, echoing every write into the cell array. -/
def ramEnv : EcEnv RamSt where
  rd := fun p e => match p with
    | .command =>
        (match e.ph with
         | .readReady _ => 1
         | _ => 0, e)
    | .data =>
        match e.ph with
        | .readReady v => (v, { e with ph := .idle })
        | _ => (0, e)
  wr := fun p v e => match p with
    | .command =>
        if v = EC_HW_RAM_READ then { e with ph := .readAddr }
        else if v = EC_HW_RAM_WRITE then { e with ph := .writeAddr }
        else e
    | .data =>
        match e.ph with
        | .readAddr => { e with ph := .readReady (e.ram v % 256) }
        | .writeAddr => { e with ph := .writeData v }
        | .writeData a =>
            { ram := fun x => if x = a then v else e.ram x, ph := .idle }
        | _ => e

/-- Indexed-protocol double: the command port always reads 1 (IBF clear,
OBF set, so every wait succeeds on its first poll), and the n-th
data-port read returns `f n`; the state is the read counter. -/
def tabEnv (f : Nat → Nat) : EcEnv Nat where
  rd := fun p k => match p with
    | .command => (1, k)
    | .data => (f k, k + 1)
  wr := fun _ _ k => k

/-- Data-port script for table enumeration: index `i < K` answers its
item-select echo with `i` and delivers `pinF i` then `devF i`; the
item-select at index `K` answers the 0xFF sentinel. -/
def tabF (pinF devF : Nat → Nat) (K : Nat) (n : Nat) : Nat :=
  if n < 3 * K then
    if n % 3 = 0 then n / 3
    else if n % 3 = 1 then pinF (n / 3)
    else devF (n / 3)
  else 0xff

/-- Data-port script for one AD conversion: echo `e` on pin select, then
the low byte `L`, then the high byte `M`. -/
def adScript (e L M : Nat) (n : Nat) : Nat :=
  if n = 0 then e else if n = 1 then L else if n = 2 then M else 0

/-- Cell contents for the SMBus doubles: status cell `stv`, first data
cell `d0`, second data cell `d1`, protocol cell `pv`, all others 0. -/
def smbusRam (stv d0 d1 pv : Nat) (a : Nat) : Nat :=
  if a = EC_SMBUS_STATUS then stv
  else if a = EC_SMBUS_DAT_OFFSET 0 then d0
  else if a = EC_SMBUS_DAT_OFFSET 1 then d1
  else if a = EC_SMBUS_PROTOCOL then pv
  else 0

/-- Number of data-port reads in a trace. -/
def dataReads (t : List Ev) : Nat :=
  t.countP fun e => match e with
    | .rdD _ => true
    | _ => false

/-! ### Helper lemmas -/

/-- Unfolding of one `wait_ibf` poll step. -/
theorem waitIbfAux_succ (E : EcEnv σ) (n : Nat) (s : St σ) :
    waitIbfAux E (n + 1) s =
      if inbVal E .command s &&& 0x02 = 0 then (0, inbSt E .command s)
      else waitIbfAux E n (inbSt E .command s) := rfl

/-- Unfolding of one `wait_obf` poll step. -/
theorem waitObfAux_succ (E : EcEnv σ) (n : Nat) (s : St σ) :
    waitObfAux E (n + 1) s =
      if inbVal E .command s &&& 0x01 ≠ 0 then (0, inbSt E .command s)
      else waitObfAux E n (inbSt E .command s) := rfl

/-- When the first poll sees IBF clear, `wait_ibf` succeeds immediately. -/
@[simp] theorem wait_ibf_first (E : EcEnv σ) (s : St σ)
    (h : inbVal E .command s &&& 0x02 = 0) :
    wait_ibf E s = (0, inbSt E .command s) := by
  show waitIbfAux E (999 + 1) s = _
  rw [waitIbfAux_succ, if_pos h]

/-- When the first poll sees OBF set, `wait_obf` succeeds immediately. -/
@[simp] theorem wait_obf_first (E : EcEnv σ) (s : St σ)
    (h : inbVal E .command s &&& 0x01 ≠ 0) :
    wait_obf E s = (0, inbSt E .command s) := by
  show waitObfAux E (999 + 1) s = _
  rw [waitObfAux_succ, if_pos h]

/-- Unfolded form of `inbVal` for simp. -/
@[simp] theorem inbVal_eq (E : EcEnv σ) (p : Port) (s : St σ) :
    inbVal E p s = (E.rd p s.env).1 % 256 := rfl

/-- Unfolded form of `inb` for simp. -/
@[simp] theorem inb_eq (E : EcEnv σ) (p : Port) (s : St σ) :
    inb E p s = (inbVal E p s, inbSt E p s) := rfl

/-- Controller state after an `inb`. -/
@[simp] theorem env_inbSt (E : EcEnv σ) (p : Port) (s : St σ) :
    (inbSt E p s).env = (E.rd p s.env).2 := rfl

/-- Controller state after an `outb`. -/
@[simp] theorem env_outb (E : EcEnv σ) (p : Port) (v : Nat) (s : St σ) :
    (outb E p v s).env = E.wr p (v % 256) s.env := rfl

/-- Taking the gate does not touch the controller. -/
@[simp] theorem env_mlock (s : St σ) : (mlock s).env = s.env := rfl

/-- Releasing the gate does not touch the controller. -/
@[simp] theorem env_munlock (s : St σ) : (munlock s).env = s.env := rfl

/-- Controller state inside the initial machine state. -/
@[simp] theorem env_st0 (e : σ) : (st0 e).env = e := rfl

/-- Gate flag through an `inb`. -/
@[simp] theorem locked_inbSt (E : EcEnv σ) (p : Port) (s : St σ) :
    (inbSt E p s).locked = s.locked := rfl

/-- Gate flag through an `outb`. -/
@[simp] theorem locked_outb (E : EcEnv σ) (p : Port) (v : Nat) (s : St σ) :
    (outb E p v s).locked = s.locked := rfl

/-- Gate flag after taking the gate. -/
@[simp] theorem locked_mlock (s : St σ) : (mlock s).locked = true := rfl

/-- Gate flag after releasing the gate. -/
@[simp] theorem locked_munlock (s : St σ) : (munlock s).locked = false := rfl

/-- Gate flag of the initial state. -/
@[simp] theorem locked_st0 (e : σ) : (st0 e).locked = false := rfl

/-- Acquire counter through an `inb`. -/
@[simp] theorem acquires_inbSt (E : EcEnv σ) (p : Port) (s : St σ) :
    (inbSt E p s).acquires = s.acquires := rfl

/-- Acquire counter through an `outb`. -/
@[simp] theorem acquires_outb (E : EcEnv σ) (p : Port) (v : Nat) (s : St σ) :
    (outb E p v s).acquires = s.acquires := rfl

/-- Acquire counter after taking the gate. -/
@[simp] theorem acquires_mlock (s : St σ) : (mlock s).acquires = s.acquires + 1 := rfl

/-- Acquire counter after releasing the gate. -/
@[simp] theorem acquires_munlock (s : St σ) : (munlock s).acquires = s.acquires := rfl

/-- Release counter through an `inb`. -/
@[simp] theorem releases_inbSt (E : EcEnv σ) (p : Port) (s : St σ) :
    (inbSt E p s).releases = s.releases := rfl

/-- Release counter through an `outb`. -/
@[simp] theorem releases_outb (E : EcEnv σ) (p : Port) (v : Nat) (s : St σ) :
    (outb E p v s).releases = s.releases := rfl

/-- Release counter after taking the gate. -/
@[simp] theorem releases_mlock (s : St σ) : (mlock s).releases = s.releases := rfl

/-- Release counter after releasing the gate. -/
@[simp] theorem releases_munlock (s : St σ) : (munlock s).releases = s.releases + 1 := rfl

/-- Unheld-release counter through an `inb`. -/
@[simp] theorem badUnlock_inbSt (E : EcEnv σ) (p : Port) (s : St σ) :
    (inbSt E p s).badUnlock = s.badUnlock := rfl

/-- Unheld-release counter through an `outb`. -/
@[simp] theorem badUnlock_outb (E : EcEnv σ) (p : Port) (v : Nat) (s : St σ) :
    (outb E p v s).badUnlock = s.badUnlock := rfl

/-- Unheld-release counter after taking the gate. -/
@[simp] theorem badUnlock_mlock (s : St σ) : (mlock s).badUnlock = s.badUnlock := rfl

/-- Unheld-release counter after releasing the gate. -/
@[simp] theorem badUnlock_munlock (s : St σ) :
    (munlock s).badUnlock = s.badUnlock + (if s.locked then 0 else 1) := rfl

/-- Fetched-cells list through an `inb`. -/
@[simp] theorem ramReads_inbSt (E : EcEnv σ) (p : Port) (s : St σ) :
    (inbSt E p s).ramReads = s.ramReads := rfl

/-- Fetched-cells list through an `outb`. -/
@[simp] theorem ramReads_outb (E : EcEnv σ) (p : Port) (v : Nat) (s : St σ) :
    (outb E p v s).ramReads = s.ramReads := rfl

/-- Fetched-cells list through gate operations. -/
@[simp] theorem ramReads_mlock (s : St σ) : (mlock s).ramReads = s.ramReads := rfl

/-- Fetched-cells list after releasing the gate. -/
@[simp] theorem ramReads_munlock (s : St σ) : (munlock s).ramReads = s.ramReads := rfl

/-- Fetched-cells list of the initial state. -/
@[simp] theorem ramReads_st0 (e : σ) : (st0 e).ramReads = [] := rfl

/-- Command-port read of the indexed-protocol double. -/
@[simp] theorem tab_rd_cmd (f : Nat → Nat) (k : Nat) :
    (tabEnv f).rd .command k = (1, k) := rfl

/-- Data-port read of the indexed-protocol double. -/
@[simp] theorem tab_rd_data (f : Nat → Nat) (k : Nat) :
    (tabEnv f).rd .data k = (f k, k + 1) := rfl

/-- Writes are ignored by the indexed-protocol double. -/
@[simp] theorem tab_wr (f : Nat → Nat) (p : Port) (v k : Nat) :
    (tabEnv f).wr p v k = k := rfl

/-- Command-port read of the HW-RAM double: 0 (IBF clear, OBF clear) in
all phases except a latched read response, where it is 1 (OBF set). -/
@[simp] theorem ram_rd_cmd_idle (r : Nat → Nat) :
    ramEnv.rd .command ⟨r, .idle⟩ = (0, ⟨r, .idle⟩) := rfl

/-- Command-port read of the HW-RAM double awaiting a read address. -/
@[simp] theorem ram_rd_cmd_readAddr (r : Nat → Nat) :
    ramEnv.rd .command ⟨r, .readAddr⟩ = (0, ⟨r, .readAddr⟩) := rfl

/-- Command-port read of the HW-RAM double awaiting a write address. -/
@[simp] theorem ram_rd_cmd_writeAddr (r : Nat → Nat) :
    ramEnv.rd .command ⟨r, .writeAddr⟩ = (0, ⟨r, .writeAddr⟩) := rfl

/-- Command-port read of the HW-RAM double awaiting a write byte. -/
@[simp] theorem ram_rd_cmd_writeData (r : Nat → Nat) (a : Nat) :
    ramEnv.rd .command ⟨r, .writeData a⟩ = (0, ⟨r, .writeData a⟩) := rfl

/-- Command-port read of the HW-RAM double with a latched response. -/
@[simp] theorem ram_rd_cmd_readReady (r : Nat → Nat) (v : Nat) :
    ramEnv.rd .command ⟨r, .readReady v⟩ = (1, ⟨r, .readReady v⟩) := rfl

/-- Data-port read of the HW-RAM double delivers the latched response. -/
@[simp] theorem ram_rd_data_readReady (r : Nat → Nat) (v : Nat) :
    ramEnv.rd .data ⟨r, .readReady v⟩ = (v, ⟨r, .idle⟩) := rfl

/-- Command-port write: the two RAM opcodes arm the phase machine, any
other opcode is ignored by this double. -/
@[simp] theorem ram_wr_cmd (r : Nat → Nat) (ph : RamPhase) (v : Nat) :
    ramEnv.wr .command v ⟨r, ph⟩ =
      if v = EC_HW_RAM_READ then ⟨r, .readAddr⟩
      else if v = EC_HW_RAM_WRITE then ⟨r, .writeAddr⟩
      else ⟨r, ph⟩ := rfl

/-- Data-port write in the idle phase is ignored. -/
@[simp] theorem ram_wr_data_idle (r : Nat → Nat) (v : Nat) :
    ramEnv.wr .data v ⟨r, .idle⟩ = ⟨r, .idle⟩ := rfl

/-- Data-port write with a latched response is ignored. -/
@[simp] theorem ram_wr_data_readReady (r : Nat → Nat) (v w : Nat) :
    ramEnv.wr .data v ⟨r, .readReady w⟩ = ⟨r, .readReady w⟩ := rfl

/-- Data-port write while a read is armed latches the cell value. -/
@[simp] theorem ram_wr_data_readAddr (r : Nat → Nat) (v : Nat) :
    ramEnv.wr .data v ⟨r, .readAddr⟩ = ⟨r, .readReady (r v % 256)⟩ := rfl

/-- Data-port write while a write is armed records the address. -/
@[simp] theorem ram_wr_data_writeAddr (r : Nat → Nat) (v : Nat) :
    ramEnv.wr .data v ⟨r, .writeAddr⟩ = ⟨r, .writeData v⟩ := rfl

/-- Data-port write of the byte stores it into the addressed cell. -/
@[simp] theorem ram_wr_data_writeData (r : Nat → Nat) (a v : Nat) :
    ramEnv.wr .data v ⟨r, .writeData a⟩ =
      ⟨fun x => if x = a then v else r x, .idle⟩ := rfl

/-- Length bookkeeping for the trace of an `inb`. -/
theorem trace_inbSt (E : EcEnv σ) (p : Port) (s : St σ) :
    (inbSt E p s).trace.length = s.trace.length + 1 := by
  simp [inbSt]

/-- Against the constant-status double with IBF stuck full, every poll
fails and the whole budget is consumed. -/
theorem waitIbfAux_timeout (c : Nat) (h : c % 256 &&& 0x02 ≠ 0) :
    ∀ (n : Nat) (s : St Unit),
      (waitIbfAux (constEnv c) n s).1 = -110 ∧
      (waitIbfAux (constEnv c) n s).2.trace.length = s.trace.length + n := by
  intro n
  induction n with
  | zero => exact fun s => ⟨rfl, rfl⟩
  | succ n ih =>
      intro s
      rw [waitIbfAux_succ]
      have hv : inbVal (constEnv c) .command s = c % 256 := rfl
      rw [hv, if_neg h]
      obtain ⟨h1, h2⟩ := ih (inbSt (constEnv c) .command s)
      refine ⟨h1, ?_⟩
      rw [h2, trace_inbSt]
      omega

/-- Against the constant-status double with OBF stuck clear, every poll
fails and the whole budget is consumed. -/
theorem waitObfAux_timeout (c : Nat) (h : ¬c % 256 &&& 0x01 ≠ 0) :
    ∀ (n : Nat) (s : St Unit),
      (waitObfAux (constEnv c) n s).1 = -110 ∧
      (waitObfAux (constEnv c) n s).2.trace.length = s.trace.length + n := by
  intro n
  induction n with
  | zero => exact fun s => ⟨rfl, rfl⟩
  | succ n ih =>
      intro s
      rw [waitObfAux_succ]
      have hv : inbVal (constEnv c) .command s = c % 256 := rfl
      rw [hv, if_neg h]
      obtain ⟨h1, h2⟩ := ih (inbSt (constEnv c) .command s)
      refine ⟨h1, ?_⟩
      rw [h2, trace_inbSt]
      omega

/-- Trace bookkeeping: gate operations and writes add no data-port read,
an `inb` on the data port adds exactly one. -/
@[simp] theorem dataReads_inbSt_cmd (E : EcEnv σ) (s : St σ) :
    dataReads (inbSt E .command s).trace = dataReads s.trace := by
  simp [inbSt, dataReads]

/-- Data-port reads count themselves in the trace. -/
@[simp] theorem dataReads_inbSt_data (E : EcEnv σ) (s : St σ) :
    dataReads (inbSt E .data s).trace = dataReads s.trace + 1 := by
  simp [inbSt, dataReads]

/-- Port writes add no data-port read to the trace. -/
@[simp] theorem dataReads_outb (E : EcEnv σ) (p : Port) (v : Nat) (s : St σ) :
    dataReads (outb E p v s).trace = dataReads s.trace := by
  cases p <;> simp [outb, dataReads]

/-- Taking the gate leaves the trace alone. -/
@[simp] theorem trace_mlock (s : St σ) : (mlock s).trace = s.trace := rfl

/-- Releasing the gate leaves the trace alone. -/
@[simp] theorem trace_munlock (s : St σ) : (munlock s).trace = s.trace := rfl

/-- The initial trace has no data-port read. -/
@[simp] theorem dataReads_st0 (e : σ) : dataReads (st0 e).trace = 0 := rfl

/-! ### Claim theorems -/

/-- C10: only `smbus_read_byte` null-checks its request (returning
-EINVAL); `smbus_read_word` and `smbus_write_byte` dereference the
request unconditionally, so a null request leaves them with no defined
result — a non-null request is a precondition of those two entry
points. -/
theorem smbus_null_check_asymmetry {σ : Type} (E : EcEnv σ) (s : St σ) :
    smbus_read_byte E none s = some (-22, none, s) ∧
    smbus_read_word E none s = none ∧
    smbus_write_byte E none s = none :=
  ⟨rfl, rfl, rfl⟩

set_option maxRecDepth 8000 in
/-- C3: when the controller echoes the 0xFF sentinel on index select,
every indexed protocol (AD read, the four GPIO operations, table
enumeration) fails with its invalid-pin/invalid-index code (-1, resp.
-EINVAL) having performed exactly one data-port read — the echo itself —
so no further data is fetched. -/
theorem indexed_ff_echo_aborts (pin multi value valIn : Nat)
    (tbl0 : Nat → Nat × Nat) :
    ((read_ad_value (tabEnv (fun _ => 0xff)) pin multi (st0 0)).1 = -1 ∧
     dataReads (read_ad_value (tabEnv (fun _ => 0xff)) pin multi (st0 0)).2.trace = 1) ∧
    ((read_gpio_status (tabEnv (fun _ => 0xff)) pin valIn (st0 0)).1.1 = -1 ∧
     dataReads (read_gpio_status (tabEnv (fun _ => 0xff)) pin valIn (st0 0)).2.trace = 1) ∧
    ((write_gpio_status (tabEnv (fun _ => 0xff)) pin value (st0 0)).1 = -1 ∧
     dataReads (write_gpio_status (tabEnv (fun _ => 0xff)) pin value (st0 0)).2.trace = 1) ∧
    ((read_gpio_dir (tabEnv (fun _ => 0xff)) pin valIn (st0 0)).1.1 = -1 ∧
     dataReads (read_gpio_dir (tabEnv (fun _ => 0xff)) pin valIn (st0 0)).2.trace = 1) ∧
    ((write_gpio_dir (tabEnv (fun _ => 0xff)) pin value (st0 0)).1 = -1 ∧
     dataReads (write_gpio_dir (tabEnv (fun _ => 0xff)) pin value (st0 0)).2.trace = 1) ∧
    ((adv_get_dynamic_tab (tabEnv (fun _ => 0xff)) tbl0 (st0 0)).1 = -22 ∧
     dataReads (adv_get_dynamic_tab (tabEnv (fun _ => 0xff)) tbl0 (st0 0)).2.2.trace = 1) := by
  have hr : List.range EC_MAX_TBL_NUM = 0 :: List.range' 1 31 := rfl
  refine ⟨⟨?_, ?_⟩, ⟨?_, ?_⟩, ⟨?_, ?_⟩, ⟨?_, ?_⟩, ⟨?_, ?_⟩, ⟨?_, ?_⟩⟩ <;>
    simp [read_ad_value, read_gpio_status, write_gpio_status, read_gpio_dir,
      write_gpio_dir, adv_get_dynamic_tab, hr, dynTabLoop]

/-- C2 (code bug): against the HW-RAM double whose protocol cell holds
the nonzero value 5 and whose RAM reads all succeed, the completion poll
`wait_smbus_protocol_finish` returns 0 (success) after a single RAM read
of the protocol cell: the source's `if (!read_hw_ram(addr, &data))
return 0;` returns success as soon as the read itself succeeds, never
comparing the delivered byte with 0, so the claimed 1000-iteration wait
for value 0 (ending in Timeout) does not happen. -/
theorem smbus_poll_ignores_protocol_value :
    smbusRam 0x80 1 0x34 5 EC_SMBUS_PROTOCOL = 5 ∧
    (wait_smbus_protocol_finish ramEnv
      (st0 ⟨smbusRam 0x80 1 0x34 5, .idle⟩)).1 = 0 ∧
    (wait_smbus_protocol_finish ramEnv
      (st0 ⟨smbusRam 0x80 1 0x34 5, .idle⟩)).2.ramReads = [EC_SMBUS_PROTOCOL] :=
  ⟨rfl, rfl, rfl⟩

/-- C1 (code bug): with the status cell reading 0x10 instead of 0x80,
each SMBus transaction does skip the data fetch (its RAM reads are
exactly the protocol cell and the status cell, and the request payload
field is left untouched), but it returns 0 — the success code — rather
than a failure: the `sm_ready != 0x80` branch jumps to `error` while
`ret` still holds 0 from the successful status read. -/
theorem smbus_status_error_returns_success :
    ((smbus_read_byte ramEnv (some ⟨2, 0x98, 5, 0xAB⟩)
        (st0 ⟨smbusRam 0x10 0x7A 0 0, .idle⟩)).map
      (fun x => (x.1, x.2.1.map (fun q => q.Data), x.2.2.ramReads))
      = some (0, some 0xAB, [EC_SMBUS_PROTOCOL, EC_SMBUS_STATUS])) ∧
    ((smbus_read_word ramEnv (some ⟨2, 0x98, 5, 0xCD⟩)
        (st0 ⟨smbusRam 0x10 0x01 0x34 0, .idle⟩)).map
      (fun x => (x.1, x.2.1.map (fun q => q.Value), x.2.2.ramReads))
      = some (0, some 0xCD, [EC_SMBUS_PROTOCOL, EC_SMBUS_STATUS])) ∧
    ((smbus_write_byte ramEnv (some ⟨2, 0x98, 5, 0x7A⟩)
        (st0 ⟨smbusRam 0x10 0 0 0, .idle⟩)).map
      (fun x => (x.1, x.2.2.ramReads))
      = some (0, [EC_SMBUS_PROTOCOL, EC_SMBUS_STATUS])) :=
  ⟨rfl, rfl, rfl⟩

/-- C7 (code bug): a fully successful `smbus_write_byte` transaction
against the HW-RAM double performs 7 balanced gate acquisitions and
releases through its HW-RAM sub-calls, and then one extra
`mutex_unlock` of a gate it never acquired (8 releases for 7 acquires,
one release of an unheld gate): the routine has no `mutex_lock` of its
own yet unlocks on both exits. -/
theorem smbus_write_byte_unbalanced_unlock :
    (smbus_write_byte ramEnv (some ⟨2, 0x98, 5, 0x7A⟩)
        (st0 ⟨smbusRam 0x80 0 0 0, .idle⟩)).map
      (fun x => (x.1, x.2.2.acquires, x.2.2.releases, x.2.2.badUnlock, x.2.2.locked))
      = some (0, 7, 8, 1, false) := rfl

/-- C8: `wait_ibf` succeeds (with a single poll) exactly when the 0x02
input-buffer-full bit of the command-port status byte is clear, and
otherwise times out with -ETIMEDOUT after polling the full fixed budget;
`wait_obf` succeeds exactly when the 0x01 output-buffer-full bit is set,
and otherwise times out likewise, with the same shared budget. -/
theorem handshake_waits_poll_bits (c : Nat) :
    ((wait_ibf (constEnv c) (st0 ())).1
      = if c % 256 &&& 0x02 = 0 then 0 else -110) ∧
    ((wait_ibf (constEnv c) (st0 ())).2.trace.length
      = if c % 256 &&& 0x02 = 0 then 1 else EC_MAX_TIMEOUT_COUNT) ∧
    ((wait_obf (constEnv c) (st0 ())).1
      = if c % 256 &&& 0x01 ≠ 0 then 0 else -110) ∧
    ((wait_obf (constEnv c) (st0 ())).2.trace.length
      = if c % 256 &&& 0x01 ≠ 0 then 1 else EC_MAX_TIMEOUT_COUNT) := by
  refine ⟨?_, ?_, ?_, ?_⟩
  · by_cases h : c % 256 &&& 0x02 = 0
    · rw [if_pos h, wait_ibf_first (constEnv c) (st0 ()) h]
    · rw [if_neg h]
      exact (waitIbfAux_timeout c h EC_MAX_TIMEOUT_COUNT (st0 ())).1
  · by_cases h : c % 256 &&& 0x02 = 0
    · rw [if_pos h, wait_ibf_first (constEnv c) (st0 ()) h]
      rfl
    · rw [if_neg h]
      simpa using (waitIbfAux_timeout c h EC_MAX_TIMEOUT_COUNT (st0 ())).2
  · by_cases h : c % 256 &&& 0x01 ≠ 0
    · rw [if_pos h, wait_obf_first (constEnv c) (st0 ()) h]
    · rw [if_neg h]
      exact (waitObfAux_timeout c h EC_MAX_TIMEOUT_COUNT (st0 ())).1
  · by_cases h : c % 256 &&& 0x01 ≠ 0
    · rw [if_pos h, wait_obf_first (constEnv c) (st0 ()) h]
      rfl
    · rw [if_neg h]
      simpa using (waitObfAux_timeout c h EC_MAX_TIMEOUT_COUNT (st0 ())).2

/-- C6: for every address A and byte value V, against the HW-RAM double
(which echoes writes into its cell array), `write_hw_ram A V` succeeds
and a subsequent `read_hw_ram A` succeeds and returns V (round-trip
law). -/
theorem hw_ram_roundtrip (ram0 : Nat → Nat) (A V : Nat) (hV : V < 256) :
    (write_hw_ram ramEnv A V (st0 ⟨ram0, .idle⟩)).1 = 0 ∧
    (read_hw_ram ramEnv A 0
      (write_hw_ram ramEnv A V (st0 ⟨ram0, .idle⟩)).2).1 = (0, V) := by
  constructor
  · simp [write_hw_ram, EC_HW_RAM_READ, EC_HW_RAM_WRITE]
  · simp [read_hw_ram, write_hw_ram, EC_HW_RAM_READ, EC_HW_RAM_WRITE]
    omega

/-- Witness for the round-trip law at address 0x12 and byte 0x34. -/
theorem hw_ram_roundtrip_witness :
    (0x34 : Nat) < 256 ∧
    (read_hw_ram ramEnv 0x12 0
      (write_hw_ram ramEnv 0x12 0x34 (st0 ⟨fun _ => 0, .idle⟩)).2).1 = (0, 0x34) :=
  ⟨by decide, (hw_ram_roundtrip (fun _ => 0) 0x12 0x34 (by decide)).2⟩

/-- Unfolding of one `wait_smbus_protocol_finish` poll step. -/
theorem waitSmbusGo_succ (E : EcEnv σ) (n : Nat) (s : St σ) :
    waitSmbusGo E (n + 1) s =
      if (read_hw_ram E EC_SMBUS_PROTOCOL 0xFF s).1.1 = 0 then
        (0, (read_hw_ram E EC_SMBUS_PROTOCOL 0xFF s).2)
      else if (read_hw_ram E EC_SMBUS_PROTOCOL 0xFF s).1.2 = 0 then
        (0, (read_hw_ram E EC_SMBUS_PROTOCOL 0xFF s).2)
      else waitSmbusGo E n (read_hw_ram E EC_SMBUS_PROTOCOL 0xFF s).2 := rfl

/-- When the first RAM read of the protocol cell succeeds, the
completion poll returns success at once. -/
theorem wait_smbus_first (E : EcEnv σ) (s : St σ)
    (h : (read_hw_ram E EC_SMBUS_PROTOCOL 0xFF s).1.1 = 0) :
    wait_smbus_protocol_finish E s =
      (0, (read_hw_ram E EC_SMBUS_PROTOCOL 0xFF s).2) := by
  show waitSmbusGo E (999 + 1) s = _
  rw [waitSmbusGo_succ, if_pos h]

set_option maxRecDepth 16000 in
/-- C9: a successful SMBus word read fetches data offset 0 then data
offset 1 (most-significant first: the RAM reads are exactly protocol
cell, status cell, offset 0, offset 1 in that order) and combines the
two bytes big-endian as (MSB <<< 8) ||| LSB into the 16-bit Value. -/
theorem smbus_word_big_endian (msb lsb : Nat) (hm : msb < 256) (hl : lsb < 256) :
    (smbus_read_word ramEnv (some ⟨2, 0x98, 5, 0⟩)
        (st0 ⟨smbusRam 0x80 msb lsb 0, .idle⟩)).map
      (fun x => (x.1, x.2.1.map (fun q => q.Value), x.2.2.ramReads))
      = some ((0 : Int), some ((msb <<< 8) ||| lsb),
          [EC_SMBUS_PROTOCOL, EC_SMBUS_STATUS,
           EC_SMBUS_DAT_OFFSET 0, EC_SMBUS_DAT_OFFSET 1]) := by
  have hor : (msb <<< 8) ||| lsb < 65536 := by
    have h1 : msb <<< 8 < 65536 := by
      rw [Nat.shiftLeft_eq]
      have h256 : (2 : Nat) ^ 8 = 256 := by norm_num
      rw [h256]
      omega
    have h2 : lsb < 65536 := by omega
    have h3 := Nat.or_lt_two_pow (x := msb <<< 8) (y := lsb) (n := 16)
      (by simpa using h1) (by simpa using h2)
    simpa using h3
  simp [smbus_read_word, smbus_read_word_body, write_hw_ram, read_hw_ram,
    wait_smbus_first, smbusRam, EC_SMBUS_CHANNEL, EC_SMBUS_SLV_ADDR,
    EC_SMBUS_CMD, EC_SMBUS_DATA, EC_SMBUS_DAT_OFFSET, EC_SMBUS_PROTOCOL,
    EC_SMBUS_STATUS, SMBUS_WORD_READ, EC_HW_RAM_READ, EC_HW_RAM_WRITE,
    Nat.mod_eq_of_lt hm, Nat.mod_eq_of_lt hl, Nat.mod_eq_of_lt hor]

/-- Witness for the big-endian word combine: MSB cell 0x01 and LSB cell
0x34 yield Value 0x0134. -/
theorem smbus_word_big_endian_witness :
    (0x01 : Nat) < 256 ∧ (0x34 : Nat) < 256 ∧
    (smbus_read_word ramEnv (some ⟨2, 0x98, 5, 0⟩)
        (st0 ⟨smbusRam 0x80 0x01 0x34 0, .idle⟩)).map
      (fun x => (x.1, x.2.1.map (fun q => q.Value), x.2.2.ramReads))
      = some (0, some 0x0134,
          [EC_SMBUS_PROTOCOL, EC_SMBUS_STATUS,
           EC_SMBUS_DAT_OFFSET 0, EC_SMBUS_DAT_OFFSET 1]) :=
  ⟨by decide, by decide, by
    rw [smbus_word_big_endian 0x01 0x34 (by decide) (by decide)]
    decide⟩

set_option maxRecDepth 8000 in
/-- C4: for every pin and byte multiplier, a successful AD read (pin
select echoed with a non-sentinel value, here 0) reads the low byte L
then the high byte H from the data port and returns
(((H <<< 8) ||| L) &&& 0x3FF) * multiplier * 100. -/
theorem ad_read_scales_ten_bit (pin mult L H : Nat)
    (hL : L < 256) (hH : H < 256) (hmult : mult < 256) :
    (read_ad_value (tabEnv (adScript 0 L H)) pin mult (st0 0)).1
      = (((((H <<< 8) ||| L) &&& 0x3FF) * mult * 100 : Nat) : Int) := by
  have hand : ((H <<< 8) ||| L) &&& 0x3FF ≤ 1023 := Nat.and_le_right
  have hfit1 : (((H <<< 8) ||| L) &&& 0x3FF) % 4294967296
      = ((H <<< 8) ||| L) &&& 0x3FF := Nat.mod_eq_of_lt (by omega)
  have hprod : (((H <<< 8) ||| L) &&& 0x3FF) * mult * 100 ≤ 1023 * 255 * 100 :=
    Nat.mul_le_mul (Nat.mul_le_mul hand (by omega)) (Nat.le_refl 100)
  have hfit2 : ((((H <<< 8) ||| L) &&& 0x3FF) * mult * 100) % 4294967296
      = (((H <<< 8) ||| L) &&& 0x3FF) * mult * 100 :=
    Nat.mod_eq_of_lt (by omega)
  simp [read_ad_value, adScript, Nat.mod_eq_of_lt hL, Nat.mod_eq_of_lt hH,
    hfit1, hfit2]

/-- Witness for the AD scaling law: L = 0x34, H = 0x01, multiplier 1
give ((0x01 <<< 8 ||| 0x34) &&& 0x3FF) * 1 * 100 = 0x134 * 100 = 30800. -/
theorem ad_read_scales_ten_bit_witness :
    (0x34 : Nat) < 256 ∧ (0x01 : Nat) < 256 ∧ (1 : Nat) < 256 ∧
    (read_ad_value (tabEnv (adScript 0 0x34 0x01)) 7 1 (st0 0)).1 = 30800 :=
  ⟨by decide, by decide, by decide, by
    rw [ad_read_scales_ten_bit 7 1 0x34 0x01 (by decide) (by decide) (by decide)]
    decide⟩

/-- Echo delivered by the table script on item select of a defined
index. -/
theorem tabF_spec0 (pinF devF : Nat → Nat) (K i : Nat) (h : i < K) :
    tabF pinF devF K (3 * i) = i := by
  unfold tabF
  rw [if_pos (by omega), if_pos (by omega)]
  omega

/-- Pin number delivered by the table script for a defined index. -/
theorem tabF_spec1 (pinF devF : Nat → Nat) (K i : Nat) (h : i < K) :
    tabF pinF devF K (3 * i + 1) = pinF i := by
  unfold tabF
  rw [if_pos (by omega), if_neg (by omega), if_pos (by omega),
    (by omega : (3 * i + 1) / 3 = i)]

/-- Device id delivered by the table script for a defined index. -/
theorem tabF_spec2 (pinF devF : Nat → Nat) (K i : Nat) (h : i < K) :
    tabF pinF devF K (3 * i + 1 + 1) = devF i := by
  unfold tabF
  rw [if_pos (by omega), if_neg (by omega), if_neg (by omega),
    (by omega : (3 * i + 1 + 1) / 3 = i)]

/-- The table script answers the item select at index K with the 0xFF
sentinel. -/
theorem tabF_specEnd (pinF devF : Nat → Nat) (K : Nat) :
    tabF pinF devF K (3 * K) = 0xff := by
  unfold tabF
  rw [if_neg (by omega)]

set_option maxRecDepth 8000 in
/-- One successful enumeration iteration: a non-sentinel echo and a
non-sentinel pin number store the (device id, pin) pair read from the
script at index i and move on with the script counter advanced by the
three data-port reads. -/
theorem dynTabLoop_cons_ok (f : Nat → Nat) (i : Nat) (rest : List Nat)
    (tbl : Nat → Nat × Nat) (s : St Nat)
    (hecho : ¬f s.env % 256 = 0xff) (hpin : ¬f (s.env + 1) % 256 = 0xff) :
    ∃ s' : St Nat,
      dynTabLoop (tabEnv f) (i :: rest) tbl s =
        dynTabLoop (tabEnv f) rest
          (fun j => if j = i then (f (s.env + 1 + 1) % 256, f (s.env + 1) % 256) else tbl j)
          s' ∧
      s'.env = s.env + 1 + 1 + 1 := by
  refine ⟨inbSt (tabEnv f) .data
      (inbSt (tabEnv f) .command
        (outb (tabEnv f) .command EC_TBL_GET_DEVID
          (inbSt (tabEnv f) .command
            (inbSt (tabEnv f) .data
              (inbSt (tabEnv f) .command
                (outb (tabEnv f) .command EC_TBL_GET_PIN
                  (inbSt (tabEnv f) .command
                    (inbSt (tabEnv f) .data
                      (inbSt (tabEnv f) .command
                        (outb (tabEnv f) .data i
                          (inbSt (tabEnv f) .command
                            (outb (tabEnv f) .command EC_TBL_WRITE_ITEM
                              (inbSt (tabEnv f) .command s))))))))))))), ?_, ?_⟩
  · simp [dynTabLoop, hecho, hpin]
  · simp

set_option maxRecDepth 8000 in
/-- One aborting enumeration iteration: the 0xFF echo on item select
returns -EINVAL with the table unchanged. -/
theorem dynTabLoop_cons_abort (f : Nat → Nat) (i : Nat) (rest : List Nat)
    (tbl : Nat → Nat × Nat) (s : St Nat)
    (hecho : f s.env % 256 = 0xff) :
    ∃ s' : St Nat,
      dynTabLoop (tabEnv f) (i :: rest) tbl s = (-22, tbl, s') := by
  refine ⟨munlock
      (inbSt (tabEnv f) .data
        (inbSt (tabEnv f) .command
          (outb (tabEnv f) .data i
            (inbSt (tabEnv f) .command
              (outb (tabEnv f) .command EC_TBL_WRITE_ITEM
                (inbSt (tabEnv f) .command s)))))), ?_⟩
  simp [dynTabLoop, hecho]

/-- The enumeration loop driven by the table script: starting at index
j0 (counter 3 * j0) with K - j0 = d defined indices left before the
sentinel at K, the loop returns -EINVAL and the final table holds the
script pairs on [j0, K) and is untouched elsewhere. -/
theorem dynTabLoop_run (pinF devF : Nat → Nat) (K : Nat) (hK : K < 32)
    (hpin : ∀ i, i < K → pinF i % 256 ≠ 0xff) :
    ∀ (d j0 : Nat), j0 + d = K →
    ∀ (tbl : Nat → Nat × Nat) (s : St Nat), s.env = 3 * j0 →
      (dynTabLoop (tabEnv (tabF pinF devF K)) (List.range' j0 (32 - j0)) tbl s).1 = -22 ∧
      ∀ j, (dynTabLoop (tabEnv (tabF pinF devF K)) (List.range' j0 (32 - j0)) tbl s).2.1 j
        = if j0 ≤ j ∧ j < K then (devF j % 256, pinF j % 256) else tbl j := by
  intro d
  induction d with
  | zero =>
      intro j0 hj0 tbl s hs
      rw [(by omega : 32 - j0 = (31 - j0) + 1), List.range'_succ]
      have hecho : tabF pinF devF K s.env % 256 = 0xff := by
        rw [hs, (by omega : 3 * j0 = 3 * K), tabF_specEnd]
      obtain ⟨s', heq⟩ :=
        dynTabLoop_cons_abort (tabF pinF devF K) j0 (List.range' (j0 + 1) (31 - j0)) tbl s hecho
      rw [heq]
      refine ⟨rfl, fun j => ?_⟩
      rw [if_neg (by omega)]
  | succ d ih =>
      intro j0 hj0 tbl s hs
      have hlt : j0 < K := by omega
      rw [(by omega : 32 - j0 = (31 - j0) + 1), List.range'_succ]
      have hecho : ¬tabF pinF devF K s.env % 256 = 0xff := by
        rw [hs, tabF_spec0 pinF devF K j0 hlt]
        omega
      have hpin2 : ¬tabF pinF devF K (s.env + 1) % 256 = 0xff := by
        rw [hs, tabF_spec1 pinF devF K j0 hlt]
        exact hpin j0 hlt
      obtain ⟨s', heq, hs'⟩ :=
        dynTabLoop_cons_ok (tabF pinF devF K) j0 (List.range' (j0 + 1) (31 - j0)) tbl s
          hecho hpin2
      rw [heq]
      simp only [hs, tabF_spec1 pinF devF K j0 hlt, tabF_spec2 pinF devF K j0 hlt]
      have ihx := ih (j0 + 1) (by omega)
        (fun j => if j = j0 then (devF j0 % 256, pinF j0 % 256) else tbl j) s'
        (by omega)
      rw [(by omega : 32 - (j0 + 1) = 31 - j0)] at ihx
      obtain ⟨ih1, ih2⟩ := ihx
      refine ⟨ih1, fun j => ?_⟩
      simp only [ih2 j]
      by_cases h1 : j0 + 1 ≤ j ∧ j < K
      · rw [if_pos h1, if_pos (by omega : j0 ≤ j ∧ j < K)]
      · rw [if_neg h1]
        by_cases h2 : j = j0
        · rw [if_pos h2, if_pos (by omega : j0 ≤ j ∧ j < K), h2]
        · rw [if_neg h2, if_neg (by omega : ¬(j0 ≤ j ∧ j < K))]

/-- C5: table enumeration against the scripted double first sets every
entry to the (0xFF, 0xFF) sentinel; when the item select at index K is
answered with 0xFF, the whole enumeration aborts with -EINVAL, entries
[0, K) hold the (device id, pin number) pairs read from the controller
and entries [K, 32) remain at the sentinel. -/
theorem dynamic_tab_partial_population (pinF devF : Nat → Nat) (K : Nat)
    (tbl0 : Nat → Nat × Nat) (hK : K < 32)
    (hpin : ∀ i, i < K → pinF i % 256 ≠ 0xff) :
    (adv_get_dynamic_tab (tabEnv (tabF pinF devF K)) tbl0 (st0 0)).1 = -22 ∧
    (∀ j, j < K →
      (adv_get_dynamic_tab (tabEnv (tabF pinF devF K)) tbl0 (st0 0)).2.1 j
        = (devF j % 256, pinF j % 256)) ∧
    (∀ j, K ≤ j → j < 32 →
      (adv_get_dynamic_tab (tabEnv (tabF pinF devF K)) tbl0 (st0 0)).2.1 j
        = (0xff, 0xff)) := by
  have hdef : adv_get_dynamic_tab (tabEnv (tabF pinF devF K)) tbl0 (st0 0)
      = dynTabLoop (tabEnv (tabF pinF devF K)) (List.range' 0 32)
          (fun j => if j < EC_MAX_TBL_NUM then ((0xff : Nat), (0xff : Nat)) else tbl0 j)
          (mlock (st0 0)) := by
    unfold adv_get_dynamic_tab
    rw [List.range_eq_range']
    rfl
  have hmain := dynTabLoop_run pinF devF K hK hpin K 0 (by omega)
    (fun j => if j < EC_MAX_TBL_NUM then ((0xff : Nat), (0xff : Nat)) else tbl0 j)
    (mlock (st0 0)) (by simp)
  simp only [Nat.sub_zero] at hmain
  obtain ⟨h1, h2⟩ := hmain
  rw [hdef]
  refine ⟨h1, fun j hj => ?_, fun j hj1 hj2 => ?_⟩
  · rw [h2 j, if_pos ⟨Nat.zero_le j, hj⟩]
  · rw [h2 j, if_neg (by omega)]
    show (if j < EC_MAX_TBL_NUM then ((0xff : Nat), (0xff : Nat)) else tbl0 j) = (0xff, 0xff)
    rw [if_pos (show j < EC_MAX_TBL_NUM from hj2)]

/-- Witness for the partial-population law: capacity 32, sentinel echo
at index 2, constant pins 3 and device ids 4. -/
theorem dynamic_tab_partial_population_witness :
    ((2 : Nat) < 32) ∧
    (adv_get_dynamic_tab (tabEnv (tabF (fun _ => 3) (fun _ => 4) 2))
        (fun _ => (0, 0)) (st0 0)).1 = -22 ∧
    (∀ j, j < 2 →
      (adv_get_dynamic_tab (tabEnv (tabF (fun _ => 3) (fun _ => 4) 2))
          (fun _ => (0, 0)) (st0 0)).2.1 j = (4, 3)) ∧
    (∀ j, 2 ≤ j → j < 32 →
      (adv_get_dynamic_tab (tabEnv (tabF (fun _ => 3) (fun _ => 4) 2))
          (fun _ => (0, 0)) (st0 0)).2.1 j = (0xff, 0xff)) :=
  ⟨by decide,
    dynamic_tab_partial_population (fun _ => 3) (fun _ => 4) 2 (fun _ => (0, 0))
      (by decide) (fun i _ => by norm_num)⟩

end Ahc1ec0
